import Mathlib

/-!
Shallow embedding of the latch-seqtk workflow (src/wf/__init__.py and
src/wf/helper.py): the seqtk command builder, the subprocess executor and
the task orchestration, together with theorems checking the repository
specification against it.
-/

namespace LatchSeqtk

/-- Commands supported by seqtk (class Command(Enum) in src/wf/__init__.py). -/
inductive Command where
  | sample
  | seq
deriving DecidableEq

/-- The .value of the Python enum member. -/
def Command.value : Command → String
  | .sample => "sample"
  | .seq => "seq"

/-- A platform-managed file reference: a local path (the result of staging,
what Path(...).resolve() yields) and a remote destination path, as in
LatchFile(path=..., remote_path=...). -/
structure LatchFile where
  path : String
  remote_path : String
deriving DecidableEq

/-- A Python float as this program uses one: it is only ever tested for
truthiness (zero or not) and rendered with str(), so we carry the exact
numeric value and its str() rendering. -/
structure PyFloat where
  val : Rat
  repr : String
deriving DecidableEq

/-- Python truthiness of an Optional[int]: None and 0 are falsy. -/
def pyTruthyInt : Option Int → Bool
  | none => false
  | some n => decide (n ≠ 0)

/-- Python truthiness of an Optional[float]: None and 0.0 are falsy. -/
def pyTruthyFloat : Option PyFloat → Bool
  | none => false
  | some f => decide (f.val ≠ 0)

/-- Python str() applied to an Optional[int]: str(None) is "None". -/
def pyStrInt : Option Int → String
  | none => "None"
  | some n => toString n

/-- Python str() applied to an Optional[float]: str(None) is "None". -/
def pyStrFloat : Option PyFloat → String
  | none => "None"
  | some f => f.repr

/-- os.path.basename on a POSIX path: everything after the last slash. -/
def basename (p : String) : String :=
  (p.splitOn "/").getLastD ""

/-- latch2local (src/wf/helper.py): resolve a staged file reference to its
absolute local filesystem path, modelled as the reference's path field. -/
def latch2local (f : LatchFile) : String :=
  f.path

/-- The per-command token list built by seqtk_task before the compression
pipe, the redirect and the empty-token filter: the cmd list literals of
src/wf/__init__.py lines 42-58. -/
def build_cmd (command : Command) (input_local : String) (seed : Int)
    (fraction : Option PyFloat) (num_reads num_bases : Option Int) : List String :=
  match command with
  | .sample =>
      ["seqtk", Command.sample.value, "-s", toString seed,
       if pyTruthyInt num_reads then "-2" else "",
       input_local,
       if pyTruthyFloat fraction then pyStrFloat fraction else pyStrInt num_reads]
  | .seq =>
      ["seqtk", Command.seq.value]
        ++ (if pyTruthyInt num_bases then ["-l", pyStrInt num_bases] else [])
        ++ [input_local]

/-- The final token list handed to execution: build_cmd, extended with
"| igzip" when the output destination ends in ".gz", then the redirect to
/root/basename(input remote path), then the filter dropping empty strings
(src/wf/__init__.py lines 60-76). -/
def seqtk_cmd (command : Command) (input_file output_file : LatchFile)
    (seed : Int) (fraction : Option PyFloat) (num_reads num_bases : Option Int) :
    List String :=
  let cmd := build_cmd command (latch2local input_file) seed fraction num_reads num_bases
  let cmd := if output_file.remote_path.endsWith ".gz" then cmd ++ ["|", "igzip"] else cmd
  let cmd := cmd ++ [">", "/root/" ++ basename input_file.remote_path]
  cmd.filter (fun e => decide (e ≠ ""))

/-- subprocess.CalledProcessError(status, cmd=cmd): carries the exit code
and the original (unjoined) token list. -/
structure CalledProcessError where
  returncode : Int
  cmd : List String
deriving DecidableEq

/-- execute_cmd (src/wf/helper.py): runs the joined command line through a
shell.  The subprocess exit status is an input of the model.  The first
component holds the stderr log lines; the informational stdout echo of the
joined command and the streamed process output are I/O and are not
modelled.  On non-zero status the failure is logged and
CalledProcessError(status, cmd) is raised; on zero status control returns
with no structured result. -/
def execute_cmd (cmd : List String) (status : Int) :
    List String × Except CalledProcessError Unit :=
  if status ≠ 0 then
    (["Failure! Command exited with status " ++ toString status ++ "."],
     Except.error ⟨status, cmd⟩)
  else
    ([], Except.ok ())

/-- A latch platform message (latch.functions.messages.message), with its
typ, title and body fields. -/
structure Message where
  typ : String
  title : String
  body : String
deriving DecidableEq

/-- Observable outcome of one seqtk_task invocation: the platform messages
emitted, the commands handed to execute_cmd, and either the returned value
or the raised error. -/
structure TaskRun where
  messages : List Message
  executed : List (List String)
  outcome : Except CalledProcessError (Option LatchFile)

/-- seqtk_task (src/wf/__init__.py): the task body.  The exit_status
argument is the exit status the shell reports for the built command. -/
def seqtk_task (input_file output_file : Option LatchFile) (command : Command)
    (seed : Int) (fraction : Option PyFloat) (num_reads num_bases : Option Int)
    (exit_status : Int) : TaskRun :=
  match input_file, output_file with
  | some inf, some outf =>
      let cmd := seqtk_cmd command inf outf seed fraction num_reads num_bases
      let msg : Message :=
        ⟨"info", "Running seqtk", "Running " ++ String.intercalate " " cmd⟩
      match execute_cmd cmd exit_status with
      | (_, Except.error e) => ⟨[msg], [cmd], Except.error e⟩
      | (_, Except.ok _) =>
          ⟨[msg], [cmd],
           Except.ok (some ⟨"/root/" ++ basename inf.remote_path, outf.remote_path⟩)⟩
  | _, _ => ⟨[], [], Except.ok none⟩

/-! Helper lemmas: the decimal rendering of an integer consists of digit
characters, possibly after a leading minus sign, and the fixed local output
prefix makes the redirect target distinct from short tokens. -/

theorem digitChar_isDigit {m : Nat} (h : m < 10) : (Nat.digitChar m).isDigit = true := by
  interval_cases m <;> decide

theorem mem_toDigitsCore_isDigit (fuel : Nat) :
    ∀ (n : Nat) (ds : List Char), (∀ d ∈ ds, d.isDigit = true) →
      ∀ c ∈ Nat.toDigitsCore 10 fuel n ds, c.isDigit = true := by
  induction fuel with
  | zero => intro n ds hds c hc; exact hds c hc
  | succ fuel ih =>
      intro n ds hds c hc
      simp only [Nat.toDigitsCore] at hc
      have hdig : ∀ d ∈ Nat.digitChar (n % 10) :: ds, d.isDigit = true := by
        intro d hd
        rcases List.mem_cons.mp hd with h1 | h1
        · subst h1; exact digitChar_isDigit (Nat.mod_lt _ (by norm_num))
        · exact hds d h1
      by_cases h : n / 10 = 0
      · rw [if_pos h] at hc
        exact hdig c hc
      · rw [if_neg h] at hc
        exact ih (n / 10) _ hdig c hc

theorem mem_natRepr_isDigit (n : Nat) (c : Char) (hc : c ∈ (Nat.repr n).data) :
    c.isDigit = true :=
  mem_toDigitsCore_isDigit (n + 1) n [] (fun d hd => absurd hd (List.not_mem_nil d)) c hc

theorem mem_intToString (n : Int) (c : Char) (hc : c ∈ (toString n).data) :
    c.isDigit = true ∨ c = Char.ofNat 45 := by
  cases n with
  | ofNat m =>
      exact Or.inl (mem_natRepr_isDigit m c hc)
  | negSucc m =>
      have hd : (toString (Int.negSucc m)).data
          = Char.ofNat 45 :: (Nat.repr (m + 1)).data := rfl
      rw [hd] at hc
      rcases List.mem_cons.mp hc with h1 | h1
      · exact Or.inr h1
      · exact Or.inl (mem_natRepr_isDigit _ c h1)

theorem intToString_ne_of_bad_char (n : Int) (s : String) (c : Char)
    (hc : c ∈ s.data) (h1 : c.isDigit = false) (h2 : c ≠ Char.ofNat 45) :
    toString n ≠ s := by
  intro he
  rcases mem_intToString n c (he ▸ hc) with h | h
  · rw [h1] at h; exact Bool.noConfusion h
  · exact h2 h

theorem intToString_ne_pipe (n : Int) : toString n ≠ "|" :=
  intToString_ne_of_bad_char n "|" (Char.ofNat 124) (by decide) (by decide) (by decide)

theorem intToString_ne_dash_l (n : Int) : toString n ≠ "-l" :=
  intToString_ne_of_bad_char n "-l" (Char.ofNat 108) (by decide) (by decide) (by decide)

theorem root_append_ne (s t : String) (h : t.length < 6) : "/root/" ++ s ≠ t := by
  intro he
  have hl := congrArg String.length he
  rw [String.length_append] at hl
  have h6 : ("/root/" : String).length = 6 := rfl
  rw [h6] at hl
  omega

/-- Structure of the final command: the filtered builder tokens, then the
optional compression pipe, then the redirect (whose tokens survive the
filter because the redirect target starts with "/root/"). -/
theorem seqtk_cmd_decompose (command : Command) (inf outf : LatchFile) (seed : Int)
    (fraction : Option PyFloat) (num_reads num_bases : Option Int) :
    seqtk_cmd command inf outf seed fraction num_reads num_bases
      = (build_cmd command (latch2local inf) seed fraction num_reads num_bases).filter
          (fun e => decide (e ≠ ""))
        ++ (if outf.remote_path.endsWith ".gz" then ["|", "igzip"] else [])
        ++ [">", "/root/" ++ basename inf.remote_path] := by
  have hroot : ("/root/" ++ basename inf.remote_path) ≠ "" :=
    root_append_ne _ "" (by decide)
  simp only [seqtk_cmd, List.filter_append]
  split
  · rw [List.filter_append]
    simp [hroot]
  · simp [hroot]

/-- Membership in the final command, characterised token by token. -/
theorem mem_seqtk_cmd_iff (command : Command) (inf outf : LatchFile) (seed : Int)
    (fraction : Option PyFloat) (num_reads num_bases : Option Int) (x : String) :
    x ∈ seqtk_cmd command inf outf seed fraction num_reads num_bases ↔
      x ≠ "" ∧
        (x ∈ build_cmd command (latch2local inf) seed fraction num_reads num_bases
          ∨ (outf.remote_path.endsWith ".gz" = true ∧ (x = "|" ∨ x = "igzip"))
          ∨ x = ">" ∨ x = "/root/" ++ basename inf.remote_path) := by
  have k1 : x = "|" → x ≠ "" := fun h => by rw [h]; decide
  have k2 : x = "igzip" → x ≠ "" := fun h => by rw [h]; decide
  have k3 : x = ">" → x ≠ "" := fun h => by rw [h]; decide
  have k4 : x = "/root/" ++ basename inf.remote_path → x ≠ "" := fun h => by
    rw [h]; exact root_append_ne _ "" (by decide)
  by_cases hgz : outf.remote_path.endsWith ".gz" = true
  · rw [seqtk_cmd_decompose, if_pos hgz]
    simp only [List.mem_append, List.mem_filter, decide_eq_true_eq, List.mem_cons,
      List.not_mem_nil, or_false, hgz, true_and]
    constructor
    · rintro ((⟨hm, hne⟩ | hp | hp) | he | hr)
      · exact ⟨hne, Or.inl hm⟩
      · exact ⟨k1 hp, Or.inr (Or.inl (Or.inl hp))⟩
      · exact ⟨k2 hp, Or.inr (Or.inl (Or.inr hp))⟩
      · exact ⟨k3 he, Or.inr (Or.inr (Or.inl he))⟩
      · exact ⟨k4 hr, Or.inr (Or.inr (Or.inr hr))⟩
    · rintro ⟨hne, hm | (hp | hp) | he | hr⟩
      · exact Or.inl (Or.inl ⟨hm, hne⟩)
      · exact Or.inl (Or.inr (Or.inl hp))
      · exact Or.inl (Or.inr (Or.inr hp))
      · exact Or.inr (Or.inl he)
      · exact Or.inr (Or.inr hr)
  · rw [seqtk_cmd_decompose, if_neg hgz]
    have hgz2 : (outf.remote_path.endsWith ".gz" = true ∧ (x = "|" ∨ x = "igzip")) ↔ False := by
      simp [hgz]
    simp only [List.mem_append, List.mem_filter, decide_eq_true_eq, List.mem_cons,
      List.not_mem_nil, or_false, hgz2, false_or]
    constructor
    · rintro (⟨hm, hne⟩ | he | hr)
      · exact ⟨hne, Or.inl hm⟩
      · exact ⟨k3 he, Or.inr (Or.inl he)⟩
      · exact ⟨k4 hr, Or.inr (Or.inr hr)⟩
    · rintro ⟨hne, hm | he | hr⟩
      · exact Or.inl ⟨hm, hne⟩
      · exact Or.inr (Or.inl he)
      · exact Or.inr (Or.inr hr)

/-- A non-empty builder token survives into the executed command. -/
theorem mem_seqtk_cmd_of_mem_build (command : Command) (inf outf : LatchFile)
    (seed : Int) (fraction : Option PyFloat) (num_reads num_bases : Option Int)
    (x : String)
    (hx : x ∈ build_cmd command (latch2local inf) seed fraction num_reads num_bases)
    (hne : x ≠ "") :
    x ∈ seqtk_cmd command inf outf seed fraction num_reads num_bases :=
  (mem_seqtk_cmd_iff command inf outf seed fraction num_reads num_bases x).mpr
    ⟨hne, Or.inl hx⟩

/-- The pipe character is never a builder token, as long as neither the
input path nor the str() rendering of the fraction is the literal "|". -/
theorem pipe_not_mem_build (command : Command) (p : String) (seed : Int)
    (fraction : Option PyFloat) (num_reads num_bases : Option Int)
    (h1 : p ≠ "|") (h2 : Option.map PyFloat.repr fraction ≠ some "|") :
    "|" ∉ build_cmd command p seed fraction num_reads num_bases := by
  intro hmem
  cases command with
  | sample =>
      simp only [build_cmd, Command.value, List.mem_cons, List.not_mem_nil, or_false] at hmem
      rcases hmem with h | h | h | h | h | h | h
      · exact absurd h (by decide)
      · exact absurd h (by decide)
      · exact absurd h (by decide)
      · exact intToString_ne_pipe seed h.symm
      · revert h
        split <;> intro h <;> exact absurd h (by decide)
      · exact h1 h.symm
      · revert h
        split <;> intro h
        · cases fraction with
          | none => exact absurd h (by decide)
          | some f =>
              apply h2
              have hrep : f.repr = "|" := h.symm
              simp [hrep]
        · cases num_reads with
          | none => exact absurd h (by decide)
          | some n => exact intToString_ne_pipe n h.symm
  | seq =>
      simp only [build_cmd, Command.value] at hmem
      rcases List.mem_append.mp hmem with h | h
      · rcases List.mem_append.mp h with h | h
        · rcases List.mem_cons.mp h with h | h
          · exact absurd h (by decide)
          · rcases List.mem_cons.mp h with h | h
            · exact absurd h (by decide)
            · exact absurd h (List.not_mem_nil _)
        · revert h
          split <;> intro h
          · rcases List.mem_cons.mp h with h | h
            · exact absurd h (by decide)
            · rcases List.mem_cons.mp h with h | h
              · cases num_bases with
                | none => exact absurd h (by decide)
                | some b => exact intToString_ne_pipe b h.symm
              · exact absurd h (List.not_mem_nil _)
          · exact absurd h (List.not_mem_nil _)
      · rcases List.mem_cons.mp h with h | h
        · exact h1 h.symm
        · exact absurd h (List.not_mem_nil _)

/-- C3: with input_file=None or output_file=None the task returns null
immediately: no message is emitted, no command is built or executed, and no
subprocess is invoked. -/
theorem c3_skip_path (input_file output_file : Option LatchFile) (command : Command)
    (seed : Int) (fraction : Option PyFloat) (num_reads num_bases : Option Int)
    (exit_status : Int) (h : input_file = none ∨ output_file = none) :
    seqtk_task input_file output_file command seed fraction num_reads num_bases exit_status
      = ⟨[], [], Except.ok none⟩ := by
  rcases h with h | h
  · subst h; cases output_file <;> rfl
  · subst h; cases input_file <;> rfl

theorem c3_skip_path_witness :
    seqtk_task none (some ⟨"/root/r2.fq", "latch:///r2.fq"⟩) Command.sample 42 none
        (some 100) none 0
      = ⟨[], [], Except.ok none⟩ :=
  c3_skip_path none (some ⟨"/root/r2.fq", "latch:///r2.fq"⟩) Command.sample 42 none
    (some 100) none 0 (Or.inl rfl)

/-- C5: a successful run (exit status 0) returns a file reference whose
local path is /root/ followed by the basename of the input remote path and
whose remote destination is the original output remote path, and the built
command redirects into exactly that local path. -/
theorem c5_output_location (command : Command) (inf outf : LatchFile) (seed : Int)
    (fraction : Option PyFloat) (num_reads num_bases : Option Int) :
    (seqtk_task (some inf) (some outf) command seed fraction num_reads num_bases 0).outcome
      = Except.ok (some ⟨"/root/" ++ basename inf.remote_path, outf.remote_path⟩)
    ∧ ∃ l, seqtk_cmd command inf outf seed fraction num_reads num_bases
        = l ++ [">", "/root/" ++ basename inf.remote_path] := by
  constructor
  · rfl
  · exact ⟨_, seqtk_cmd_decompose command inf outf seed fraction num_reads num_bases⟩

/-- C7: a non-zero exit status makes the executor log the status and raise
CalledProcessError carrying the exit code and the original unjoined token
list, so the task yields no output file reference; a zero exit status
returns normally with no structured result. -/
theorem c7_exec_error (cmd : List String) (status : Int) (inf outf : LatchFile)
    (command : Command) (seed : Int) (fraction : Option PyFloat)
    (num_reads num_bases : Option Int) (h : status ≠ 0) :
    execute_cmd cmd status
      = (["Failure! Command exited with status " ++ toString status ++ "."],
         Except.error ⟨status, cmd⟩)
    ∧ (seqtk_task (some inf) (some outf) command seed fraction num_reads num_bases
          status).outcome
        = Except.error ⟨status, seqtk_cmd command inf outf seed fraction num_reads num_bases⟩
    ∧ execute_cmd cmd 0 = ([], Except.ok ()) := by
  refine ⟨by simp [execute_cmd, h], ?_, rfl⟩
  simp only [seqtk_task, execute_cmd, if_pos h]

theorem c7_exec_error_witness :
    execute_cmd ["seqtk", "seq"] 1
      = (["Failure! Command exited with status 1."], Except.error ⟨1, ["seqtk", "seq"]⟩)
    ∧ (seqtk_task (some ⟨"/root/r1.fq", "latch:///r1.fq"⟩)
          (some ⟨"/root/o.fq", "latch:///o.fq"⟩) Command.seq 42 none none none 1).outcome
        = Except.error ⟨1, seqtk_cmd Command.seq ⟨"/root/r1.fq", "latch:///r1.fq"⟩
            ⟨"/root/o.fq", "latch:///o.fq"⟩ 42 none none none⟩
    ∧ execute_cmd ["seqtk", "seq"] 0 = ([], Except.ok ()) :=
  c7_exec_error ["seqtk", "seq"] 1 ⟨"/root/r1.fq", "latch:///r1.fq"⟩
    ⟨"/root/o.fq", "latch:///o.fq"⟩ Command.seq 42 none none none (by decide)

/-- C8: the final token sequence handed to the executor never contains an
empty-string element: empty tokens from omitted optional flags are filtered
out before joining and execution. -/
theorem c8_no_empty_token (command : Command) (inf outf : LatchFile) (seed : Int)
    (fraction : Option PyFloat) (num_reads num_bases : Option Int) :
    "" ∉ seqtk_cmd command inf outf seed fraction num_reads num_bases := by
  intro h
  exact ((mem_seqtk_cmd_iff command inf outf seed fraction num_reads num_bases "").mp h).1 rfl

/-- C9: with command=sample, fraction=None and num_reads=None nothing
fails: the sample branch's final positional token is str(None) = "None",
which is non-empty, survives the empty-token filter into the executed
command, and with exit status 0 the task completes normally. -/
theorem c9_none_literal (inf outf : LatchFile) (seed : Int) (num_bases : Option Int) :
    build_cmd Command.sample (latch2local inf) seed none none num_bases
      = ["seqtk", "sample", "-s", toString seed, "", latch2local inf, "None"]
    ∧ "None" ∈ seqtk_cmd Command.sample inf outf seed none none num_bases
    ∧ ∃ res : LatchFile,
        (seqtk_task (some inf) (some outf) Command.sample seed none none num_bases 0).outcome
          = Except.ok (some res) := by
  refine ⟨rfl, ?_, ⟨_, rfl⟩⟩
  apply mem_seqtk_cmd_of_mem_build Command.sample inf outf seed none none num_bases "None"
  · simp [build_cmd, pyTruthyInt, pyTruthyFloat, pyStrInt]
  · decide

/-- C1: sample with non-null non-zero num_reads and fraction=None builds the
token list [seqtk, sample, -s, str(seed), -2, input, str(num_reads)], whose
final positional argument is the integer rendering of num_reads; with a
non-zero fraction and num_reads=None the final positional argument is
str(fraction), the flag slot holds the empty token, and (as long as no
other parameter happens to render as the literal string "-2") no "-2"
token appears. -/
theorem c1_sample_build (seed : Int) (p : String) (num_bases : Option Int) :
    (∀ n : Int, n ≠ 0 →
        build_cmd Command.sample p seed none (some n) num_bases
          = ["seqtk", "sample", "-s", toString seed, "-2", p, toString n])
    ∧ (∀ f : PyFloat, f.val ≠ 0 →
        build_cmd Command.sample p seed (some f) none num_bases
          = ["seqtk", "sample", "-s", toString seed, "", p, f.repr])
    ∧ (∀ f : PyFloat, f.val ≠ 0 → toString seed ≠ "-2" → p ≠ "-2" → f.repr ≠ "-2" →
        "-2" ∉ build_cmd Command.sample p seed (some f) none num_bases) := by
  refine ⟨?_, ?_, ?_⟩
  · intro n hn
    simp [build_cmd, Command.value, pyTruthyInt, pyTruthyFloat, pyStrInt, hn]
  · intro f hf
    simp [build_cmd, Command.value, pyTruthyInt, pyTruthyFloat, pyStrFloat, hf]
  · intro f hf hs hp hr
    have heq : build_cmd Command.sample p seed (some f) none num_bases
        = ["seqtk", "sample", "-s", toString seed, "", p, f.repr] := by
      simp [build_cmd, Command.value, pyTruthyInt, pyTruthyFloat, pyStrFloat, hf]
    rw [heq]
    intro hmem
    simp only [List.mem_cons, List.not_mem_nil, or_false] at hmem
    rcases hmem with h | h | h | h | h | h | h
    · exact absurd h (by decide)
    · exact absurd h (by decide)
    · exact absurd h (by decide)
    · exact hs h.symm
    · exact absurd h (by decide)
    · exact hp h.symm
    · exact hr h.symm

theorem c1_sample_build_witness :
    build_cmd Command.sample "/root/r1.fq" 42 none (some 100) none
      = ["seqtk", "sample", "-s", "42", "-2", "/root/r1.fq", "100"]
    ∧ build_cmd Command.sample "/root/r1.fq" 42 (some ⟨1 / 10, "0.1"⟩) none none
      = ["seqtk", "sample", "-s", "42", "", "/root/r1.fq", "0.1"]
    ∧ "-2" ∉ build_cmd Command.sample "/root/r1.fq" 42 (some ⟨1 / 10, "0.1"⟩) none none := by
  obtain ⟨h1, h2, h3⟩ := c1_sample_build 42 "/root/r1.fq" none
  exact ⟨(h1 100 (by decide)).trans (by decide),
         (h2 ⟨1 / 10, "0.1"⟩ (by norm_num)).trans (by decide),
         h3 ⟨1 / 10, "0.1"⟩ (by norm_num) (by decide) (by decide) (by decide)⟩

/-- C2 counterexample: both parameters supplied (non-null), with
fraction=0.0 and num_reads=100.  The claim says str(fraction) = "0.0" is
the final positional argument, but the code tests fraction for Python
truthiness, 0.0 is falsy, and the built command ends with
str(num_reads) = "100"; "0.0" appears nowhere. -/
theorem c2_counterexample :
    build_cmd Command.sample "/root/r1.fq" 42 (some ⟨0, "0.0"⟩) (some 100) none
      = ["seqtk", "sample", "-s", "42", "-2", "/root/r1.fq", "100"]
    ∧ "0.0" ∉ build_cmd Command.sample "/root/r1.fq" 42 (some ⟨0, "0.0"⟩) (some 100) none := by
  constructor
  · decide
  · decide

/-- C2 amended: when both fraction and num_reads are supplied and fraction
is non-zero (truthy), the final positional argument of the built sample
command is str(fraction), i.e. fraction silently takes precedence over
num_reads. -/
theorem c2_fraction_precedence (seed : Int) (p : String) (num_bases : Option Int)
    (f : PyFloat) (n : Int) (hf : f.val ≠ 0) :
    (build_cmd Command.sample p seed (some f) (some n) num_bases).getLast?
      = some f.repr := by
  have h : build_cmd Command.sample p seed (some f) (some n) num_bases
      = ["seqtk", "sample", "-s", toString seed,
         if pyTruthyInt (some n) then "-2" else "", p] ++ [f.repr] := by
    simp [build_cmd, Command.value, pyTruthyFloat, pyStrFloat, hf]
  rw [h, List.getLast?_concat]

theorem c2_fraction_precedence_witness :
    (build_cmd Command.sample "/root/r1.fq" 42 (some ⟨1 / 10, "0.1"⟩) (some 100)
        none).getLast? = some "0.1" :=
  c2_fraction_precedence 42 "/root/r1.fq" none ⟨1 / 10, "0.1"⟩ 100 (by norm_num)

/-- C10: with both fraction and num_reads non-null and non-zero, the sample
command carries the "-2" flag (driven by num_reads) while its final
positional token is str(fraction) rather than num_reads, and the "-2" flag
survives the filter into the executed command. -/
theorem c10_flag_with_fraction (inf outf : LatchFile) (seed : Int)
    (num_bases : Option Int) (f : PyFloat) (n : Int) (hf : f.val ≠ 0) (hn : n ≠ 0) :
    build_cmd Command.sample (latch2local inf) seed (some f) (some n) num_bases
      = ["seqtk", "sample", "-s", toString seed, "-2", latch2local inf, f.repr]
    ∧ "-2" ∈ seqtk_cmd Command.sample inf outf seed (some f) (some n) num_bases := by
  have hb : build_cmd Command.sample (latch2local inf) seed (some f) (some n) num_bases
      = ["seqtk", "sample", "-s", toString seed, "-2", latch2local inf, f.repr] := by
    simp [build_cmd, Command.value, pyTruthyInt, pyTruthyFloat, pyStrFloat, hf, hn]
  refine ⟨hb, mem_seqtk_cmd_of_mem_build Command.sample inf outf seed (some f) (some n)
    num_bases "-2" ?_ (by decide)⟩
  rw [hb]
  simp

theorem c10_flag_with_fraction_witness :
    build_cmd Command.sample "/root/r1.fq" 42 (some ⟨1 / 10, "0.1"⟩) (some 100) none
      = ["seqtk", "sample", "-s", toString (42 : Int), "-2", "/root/r1.fq", "0.1"]
    ∧ "-2" ∈ seqtk_cmd Command.sample ⟨"/root/r1.fq", "latch:///r1.fq"⟩
        ⟨"/root/o.fq", "latch:///o.fq"⟩ 42 (some ⟨1 / 10, "0.1"⟩) (some 100) none :=
  c10_flag_with_fraction ⟨"/root/r1.fq", "latch:///r1.fq"⟩
    ⟨"/root/o.fq", "latch:///o.fq"⟩ 42 none ⟨1 / 10, "0.1"⟩ 100 (by norm_num) (by decide)

/-- C6: seq with non-null non-zero num_bases builds [seqtk, seq, -l,
str(num_bases), input], so the -l flag and its value sit immediately before
the input path; with num_bases=None no "-l" token appears anywhere in the
executed command (as long as the input path itself is not the literal
string "-l"). -/
theorem c6_seq_build (inf outf : LatchFile) (seed : Int) (fraction : Option PyFloat)
    (num_reads : Option Int) :
    (∀ b : Int, b ≠ 0 →
        build_cmd Command.seq (latch2local inf) seed fraction num_reads (some b)
          = ["seqtk", "seq", "-l", toString b, latch2local inf])
    ∧ (inf.path ≠ "-l" →
        "-l" ∉ seqtk_cmd Command.seq inf outf seed fraction num_reads none) := by
  constructor
  · intro b hb
    simp [build_cmd, Command.value, pyTruthyInt, pyStrInt, hb]
  · intro hp h
    have h2 := (mem_seqtk_cmd_iff Command.seq inf outf seed fraction num_reads none "-l").mp h
    rcases h2.2 with hm | hg | he | hr
    · simp only [build_cmd, Command.value, pyTruthyInt] at hm
      rcases List.mem_append.mp hm with hm | hm
      · rcases List.mem_append.mp hm with hm | hm
        · rcases List.mem_cons.mp hm with hm | hm
          · exact absurd hm (by decide)
          · rcases List.mem_cons.mp hm with hm | hm
            · exact absurd hm (by decide)
            · exact absurd hm (List.not_mem_nil _)
        · simp at hm
      · rcases List.mem_cons.mp hm with hm | hm
        · exact hp hm.symm
        · exact absurd hm (List.not_mem_nil _)
    · rcases hg.2 with hg | hg <;> exact absurd hg (by decide)
    · exact absurd he (by decide)
    · exact root_append_ne (basename inf.remote_path) "-l" (by decide) hr.symm

theorem c6_seq_build_witness :
    build_cmd Command.seq "/root/r1.fq" 42 none none (some 60)
      = ["seqtk", "seq", "-l", "60", "/root/r1.fq"]
    ∧ "-l" ∉ seqtk_cmd Command.seq ⟨"/root/r1.fq", "latch:///r1.fq"⟩
        ⟨"/root/o.fq", "latch:///o.fq"⟩ 42 none none none := by
  obtain ⟨h1, h2⟩ := c6_seq_build ⟨"/root/r1.fq", "latch:///r1.fq"⟩
    ⟨"/root/o.fq", "latch:///o.fq"⟩ 42 none none
  exact ⟨(h1 60 (by decide)).trans (by decide), h2 (by decide)⟩

/-- C4: the assembled command contains the pipe-to-compressor stage exactly
when the output remote destination ends in ".gz" (as long as neither the
input path nor the rendered fraction is the literal "|"), and the stage
sits after the filtered builder tokens and immediately before the final
redirect. -/
theorem c4_gzip_pipe (command : Command) (inf outf : LatchFile) (seed : Int)
    (fraction : Option PyFloat) (num_reads num_bases : Option Int)
    (h1 : inf.path ≠ "|") (h2 : Option.map PyFloat.repr fraction ≠ some "|") :
    ("|" ∈ seqtk_cmd command inf outf seed fraction num_reads num_bases
        ↔ outf.remote_path.endsWith ".gz" = true)
    ∧ seqtk_cmd command inf outf seed fraction num_reads num_bases
        = (build_cmd command (latch2local inf) seed fraction num_reads num_bases).filter
            (fun e => decide (e ≠ ""))
          ++ (if outf.remote_path.endsWith ".gz" then ["|", "igzip"] else [])
          ++ [">", "/root/" ++ basename inf.remote_path] := by
  refine ⟨?_, seqtk_cmd_decompose command inf outf seed fraction num_reads num_bases⟩
  rw [mem_seqtk_cmd_iff]
  constructor
  · rintro ⟨-, hm | hg | he | hr⟩
    · exact absurd hm (pipe_not_mem_build command (latch2local inf) seed fraction
        num_reads num_bases h1 h2)
    · exact hg.1
    · exact absurd he (by decide)
    · exact absurd hr.symm (root_append_ne (basename inf.remote_path) "|" (by decide))
  · intro hgz
    exact ⟨by decide, Or.inr (Or.inl ⟨hgz, Or.inl rfl⟩)⟩

theorem c4_gzip_pipe_witness :
    ("|" ∈ seqtk_cmd Command.seq ⟨"/root/r1.fq", "latch:///r1.fq"⟩
        ⟨"/root/o.fq.gz", "latch:///o.fq.gz"⟩ 42 none none none
      ↔ ("latch:///o.fq.gz" : String).endsWith ".gz" = true)
    ∧ seqtk_cmd Command.seq ⟨"/root/r1.fq", "latch:///r1.fq"⟩
        ⟨"/root/o.fq.gz", "latch:///o.fq.gz"⟩ 42 none none none
      = (build_cmd Command.seq (latch2local ⟨"/root/r1.fq", "latch:///r1.fq"⟩) 42
            none none none).filter (fun e => decide (e ≠ ""))
        ++ (if ("latch:///o.fq.gz" : String).endsWith ".gz" then ["|", "igzip"] else [])
        ++ [">", "/root/" ++ basename "latch:///r1.fq"] :=
  c4_gzip_pipe Command.seq ⟨"/root/r1.fq", "latch:///r1.fq"⟩
    ⟨"/root/o.fq.gz", "latch:///o.fq.gz"⟩ 42 none none none (by decide) (by decide)

end LatchSeqtk
